import Mathlib

/-!
Verification development for the telegram-admin-bot repository.

Shallow embedding of the lifecycle-relevant code:
* `modules/database.py`  — instance store (save / get / extend / dns update),
* `modules/create_k8s_cluster.py` — HTTP retry helper and idempotent cluster creation,
* `bot.py` — expiry sweep (`notify_and_check_instances`) and the provisioning
  fast-poll (`poll_provisioning_clusters`).

Python `datetime` values (as produced by `strptime("%Y-%m-%d %H:%M:%S")` and
consumed by `strftime`/`timedelta`) are modelled by the `Dt` structure below;
`timedelta(days=n)` addition is modelled by iterating a calendar successor,
with `none` standing for the `OverflowError` Python raises past
`datetime.max` (year 9999).
-/

/-- A Python `datetime` value at second granularity (microseconds are never
produced by the `%Y-%m-%d %H:%M:%S` parse used throughout the repository). -/
structure Dt where
  year : Nat
  month : Nat
  day : Nat
  hour : Nat
  minute : Nat
  second : Nat
deriving Repr, DecidableEq

/-- Gregorian leap-year rule, as used by the Python `calendar`/`datetime` modules. -/
def isLeapYear (y : Nat) : Bool :=
  (y % 4 == 0 && y % 100 != 0) || y % 400 == 0

/-- Number of days in a month of a given year. -/
def daysInMonth (y m : Nat) : Nat :=
  if m == 2 then (if isLeapYear y then 29 else 28)
  else if m == 4 || m == 6 || m == 9 || m == 11 then 30
  else 31

/-- Range validity of a `Dt`, matching the values `datetime` accepts
(`MINYEAR = 1`, `MAXYEAR = 9999`, calendar-valid day). -/
def validDt (d : Dt) : Bool :=
  1 ≤ d.year && d.year ≤ 9999 &&
  1 ≤ d.month && d.month ≤ 12 &&
  1 ≤ d.day && d.day ≤ daysInMonth d.year d.month &&
  d.hour ≤ 23 && d.minute ≤ 59 && d.second ≤ 59

/-- Calendar successor day; `none` models the `OverflowError` raised when the
result would pass `datetime.max` (9999-12-31). -/
def nextDay (d : Dt) : Option Dt :=
  if d.day < daysInMonth d.year d.month then some { d with day := d.day + 1 }
  else if d.month < 12 then some { d with month := d.month + 1, day := 1 }
  else if d.year < 9999 then some { d with year := d.year + 1, month := 1, day := 1 }
  else none

/-- Model of `d + timedelta(days = n)` for a non-negative day count (the bot only ever
extends by +3 or +7 days); `none` models `OverflowError`. -/
def addDays (d : Dt) : Nat → Option Dt
  | 0 => some d
  | n + 1 => (nextDay d).bind (fun d2 => addDays d2 n)

theorem daysInMonth_pos (y m : Nat) : 1 ≤ daysInMonth y m := by
  unfold daysInMonth
  split <;> [split <;> omega; skip]
  split <;> omega

theorem nextDay_valid {d d' : Dt} (hv : validDt d = true) (h : nextDay d = some d') :
    validDt d' = true := by
  unfold nextDay at h
  unfold validDt at hv ⊢
  simp only [Bool.and_eq_true, decide_eq_true_eq] at hv
  split at h
  · cases h
    simp only [Bool.and_eq_true, decide_eq_true_eq]
    omega
  · split at h
    · cases h
      simp only [Bool.and_eq_true, decide_eq_true_eq]
      have := daysInMonth_pos d.year (d.month + 1)
      omega
    · split at h
      · cases h
        simp only [Bool.and_eq_true, decide_eq_true_eq]
        have := daysInMonth_pos (d.year + 1) 1
        omega
      · cases h

theorem nextDay_year_mono {d d' : Dt} (h : nextDay d = some d') : d.year ≤ d'.year := by
  unfold nextDay at h
  split at h
  · cases h; dsimp only; omega
  · split at h
    · cases h; dsimp only; omega
    · split at h
      · cases h; dsimp only; omega
      · cases h

theorem addDays_valid {d d' : Dt} {n : Nat} (hv : validDt d = true)
    (h : addDays d n = some d') : validDt d' = true := by
  induction n generalizing d with
  | zero => unfold addDays at h; cases h; exact hv
  | succ k ih =>
    unfold addDays at h
    cases hnext : nextDay d with
    | none => rw [hnext] at h; cases h
    | some d2 =>
      rw [hnext] at h
      exact ih (nextDay_valid hv hnext) h

theorem addDays_year_mono {d d' : Dt} {n : Nat} (h : addDays d n = some d') :
    d.year ≤ d'.year := by
  induction n generalizing d with
  | zero => unfold addDays at h; cases h; omega
  | succ k ih =>
    unfold addDays at h
    cases hnext : nextDay d with
    | none => rw [hnext] at h; cases h
    | some d2 =>
      rw [hnext] at h
      exact le_trans (nextDay_year_mono hnext) (ih h)

theorem addDays_add (d : Dt) (a b : Nat) :
    addDays d (a + b) = (addDays d a).bind (fun x => addDays x b) := by
  induction a generalizing d with
  | zero => simp [addDays]
  | succ k ih =>
    have h1 : k + 1 + b = (k + b) + 1 := by omega
    rw [h1, show addDays d (k + b + 1) = (nextDay d).bind (fun x => addDays x (k + b)) from rfl,
      show addDays d (k + 1) = (nextDay d).bind (fun x => addDays x k) from rfl]
    cases nextDay d with
    | none => simp
    | some d2 => simp [ih d2]

/-! ### Decimal digits, `strftime` and `strptime`

`strftime("%Y-%m-%d %H:%M:%S")` zero-pads the two-digit fields; `%Y` prints
the year unpadded (glibc behaviour), which gives four digits exactly when
`1000 ≤ year ≤ 9999`.  `strptime` with the same format requires exactly four
digits for `%Y` and accepts one or two digits for the other fields, failing
on out-of-range values, leftover input, or a calendar-invalid date. -/

/-- Numeric value of a decimal digit character (codepoint 48 is the zero
digit), `none` for anything that is not an ASCII digit. -/
def decodeDigit (c : Char) : Option Nat :=
  if c.isDigit then some (c.toNat - 48) else none

/-- Decimal digit character for a value `0..9`. -/
def encodeDigit (n : Nat) : Char :=
  Char.ofNat (48 + n)

/-- Two-digit zero-padded rendering (`%m`, `%d`, `%H`, `%M`, `%S`). -/
def twoDigits (n : Nat) : List Char :=
  [encodeDigit (n / 10), encodeDigit (n % 10)]

/-- Four-digit rendering of a year `1000..9999` (`%Y`). -/
def fourDigits (n : Nat) : List Char :=
  [encodeDigit (n / 1000), encodeDigit (n / 100 % 10), encodeDigit (n / 10 % 10),
   encodeDigit (n % 10)]

/-- Unpadded decimal rendering, used by glibc `%Y` for years below 1000. -/
def natChars (n : Nat) : List Char :=
  (Nat.toDigits 10 n)

/-- The `%Y` rendering of a year. -/
def yearChars (y : Nat) : List Char :=
  if 1000 ≤ y then fourDigits y else natChars y

/-- Rendering by `datetime.strftime("%Y-%m-%d %H:%M:%S")` as a character list. -/
def formatChars (d : Dt) : List Char :=
  yearChars d.year ++ ('-' :: (twoDigits d.month ++ ('-' :: (twoDigits d.day ++
    (' ' :: (twoDigits d.hour ++ (':' :: (twoDigits d.minute ++
    (':' :: twoDigits d.second)))))))))

/-- Rendering by `datetime.strftime("%Y-%m-%d %H:%M:%S")`. -/
def formatDt (d : Dt) : String :=
  ⟨formatChars d⟩

/-- Read one or two decimal digits greedily (the `strptime` number fields
accept one or two digits; a third digit in the input makes the overall
match fail because the following separator is then missing). -/
def readUpTo2 : List Char → Option (Nat × List Char)
  | c1 :: c2 :: rest =>
    match decodeDigit c1, decodeDigit c2 with
    | some a, some b => some (10 * a + b, rest)
    | some a, none => some (a, c2 :: rest)
    | none, _ => none
  | [c1] =>
    match decodeDigit c1 with
    | some a => some (a, [])
    | none => none
  | [] => none

/-- Read exactly four decimal digits (`%Y`). -/
def read4 : List Char → Option (Nat × List Char)
  | c1 :: c2 :: c3 :: c4 :: rest =>
    match decodeDigit c1, decodeDigit c2, decodeDigit c3, decodeDigit c4 with
    | some a, some b, some c, some e => some (1000 * a + 100 * b + 10 * c + e, rest)
    | _, _, _, _ => none
  | _ => none

/-- Consume one expected literal character of the format. -/
def expectChar (ch : Char) : List Char → Option (List Char)
  | c :: rest => if c == ch then some rest else none
  | [] => none

/-- The field-reading part of `strptime("%Y-%m-%d %H:%M:%S")`: reads all six
fields and requires the input to be exhausted. -/
def rawParse (cs : List Char) : Option Dt := do
  let (y, cs) ← read4 cs
  let cs ← expectChar '-' cs
  let (mo, cs) ← readUpTo2 cs
  let cs ← expectChar '-' cs
  let (da, cs) ← readUpTo2 cs
  let cs ← expectChar ' ' cs
  let (hh, cs) ← readUpTo2 cs
  let cs ← expectChar ':' cs
  let (mi, cs) ← readUpTo2 cs
  let cs ← expectChar ':' cs
  let (ss, cs) ← readUpTo2 cs
  match cs with
  | [] => some ⟨y, mo, da, hh, mi, ss⟩
  | _ => none

/-- Model of `datetime.strptime(s, "%Y-%m-%d %H:%M:%S")`: `none` models the
`ValueError` raised on a malformed string, an out-of-range field or a
calendar-invalid date. -/
def parseDt (s : String) : Option Dt :=
  (rawParse s.data).bind (fun d => if validDt d then some d else none)

theorem parseDt_valid {s : String} {d : Dt} (h : parseDt s = some d) :
    validDt d = true := by
  unfold parseDt at h
  cases hr : rawParse s.data with
  | none => rw [hr] at h; cases h
  | some d0 =>
    rw [hr] at h
    rw [show (some d0).bind (fun x => if validDt x then some x else none)
        = if validDt d0 then some d0 else none from rfl] at h
    by_cases hv : validDt d0 = true
    · rw [if_pos hv] at h; cases h; exact hv
    · rw [if_neg hv] at h; cases h

theorem decodeDigit_encodeDigit {n : Nat} (h : n ≤ 9) :
    decodeDigit (encodeDigit n) = some n := by
  interval_cases n <;> rfl

theorem readUpTo2_twoDigits {n : Nat} (h : n ≤ 99) (rest : List Char) :
    readUpTo2 (twoDigits n ++ rest) = some (n, rest) := by
  have h1 : n / 10 ≤ 9 := by omega
  have h2 : n % 10 ≤ 9 := by omega
  have h3 : 10 * (n / 10) + n % 10 = n := by omega
  simp only [twoDigits, List.cons_append, List.nil_append, readUpTo2,
    decodeDigit_encodeDigit h1, decodeDigit_encodeDigit h2, h3]

theorem read4_fourDigits {n : Nat} (h : n ≤ 9999) (rest : List Char) :
    read4 (fourDigits n ++ rest) = some (n, rest) := by
  have h1 : n / 1000 ≤ 9 := by omega
  have h2 : n / 100 % 10 ≤ 9 := by omega
  have h3 : n / 10 % 10 ≤ 9 := by omega
  have h4 : n % 10 ≤ 9 := by omega
  have h5 : 1000 * (n / 1000) + 100 * (n / 100 % 10) + 10 * (n / 10 % 10) + n % 10 = n := by
    omega
  simp only [fourDigits, List.cons_append, List.nil_append, read4,
    decodeDigit_encodeDigit h1, decodeDigit_encodeDigit h2,
    decodeDigit_encodeDigit h3, decodeDigit_encodeDigit h4, h5]

theorem readUpTo2_twoDigits_nil {n : Nat} (h : n ≤ 99) :
    readUpTo2 (twoDigits n) = some (n, []) := by
  have h1 : n / 10 ≤ 9 := by omega
  have h2 : n % 10 ≤ 9 := by omega
  have h3 : 10 * (n / 10) + n % 10 = n := by omega
  simp only [twoDigits, readUpTo2, decodeDigit_encodeDigit h1,
    decodeDigit_encodeDigit h2, h3]

theorem expectChar_cons (ch : Char) (rest : List Char) :
    expectChar ch (ch :: rest) = some rest := by
  simp [expectChar]

theorem rawParse_formatChars {d : Dt} (hv : validDt d = true) (hy : 1000 ≤ d.year) :
    rawParse (formatChars d) = some d := by
  have hvv := hv
  unfold validDt at hvv
  simp only [Bool.and_eq_true, decide_eq_true_eq] at hvv
  have hy9999 : d.year ≤ 9999 := by omega
  have hmo : d.month ≤ 99 := by omega
  have hda : d.day ≤ 99 := by
    have h31 : daysInMonth d.year d.month ≤ 31 := by
      unfold daysInMonth
      split <;> [split <;> omega; skip]
      split <;> omega
    omega
  have hhh : d.hour ≤ 99 := by omega
  have hmi : d.minute ≤ 99 := by omega
  have hss : d.second ≤ 99 := by omega
  unfold formatChars yearChars
  rw [if_pos hy]
  unfold rawParse
  simp only [read4_fourDigits hy9999, Option.bind_eq_bind, Option.some_bind,
    expectChar_cons, readUpTo2_twoDigits hmo, readUpTo2_twoDigits hda,
    readUpTo2_twoDigits hhh, readUpTo2_twoDigits hmi, readUpTo2_twoDigits_nil hss]

/-- Round-trip: a valid datetime with a four-digit year parses back from its
`strftime` rendering. -/
theorem parseDt_formatDt {d : Dt} (hv : validDt d = true) (hy : 1000 ≤ d.year) :
    parseDt (formatDt d) = some d := by
  have hdata : (formatDt d).data = formatChars d := rfl
  unfold parseDt
  rw [hdata, rawParse_formatChars hv hy]
  simp only [Option.some_bind, if_pos hv]

/-! ### The instance store (`modules/database.py`)

The `instances` table is modelled as a list of rows; `droplet_id` is the
primary key (creation flows allocate provider-unique ids).  SQLite `NULL`s
are `Option` values: a fetched row always carries all thirteen selected
columns, optional ones as `none` rather than being absent. -/

/-- One row of the `instances` table, with the columns selected by
`get_instance_by_id`. -/
structure InstanceRow where
  droplet_id : Nat
  name : String
  ip_address : String
  droplet_type : String
  expiration_date : String
  ssh_key_id : Nat
  creator_id : Nat
  creator_username : Option String
  domain_name : Option String
  dns_record_id : Option Nat
  dns_zone : Option String
  created_at : Option String
  price_hourly : Option Rat
deriving Repr, DecidableEq

/-- Python `database.save_instance`: INSERT of a new row.  The DNS triple is not
among the INSERT columns, so it starts out NULL.  A duplicate primary key
raises `sqlite3.IntegrityError`, which the function catches and logs,
leaving the table unchanged. -/
def save_instance (db : List InstanceRow) (droplet_id : Nat)
    (name ip_address droplet_type expiration_date : String)
    (ssh_key_id creator_id : Nat) (creator_username : Option String)
    (created_at : Option String) (price_hourly : Option Rat) :
    List InstanceRow :=
  if (db.find? fun r => r.droplet_id == droplet_id).isSome then db
  else db ++ [⟨droplet_id, name, ip_address, droplet_type, expiration_date,
    ssh_key_id, creator_id, creator_username, none, none, none, created_at,
    price_hourly⟩]

/-- Python `database.get_instance_by_id`: point lookup, `None` when absent. -/
def get_instance_by_id (db : List InstanceRow) (droplet_id : Nat) :
    Option InstanceRow :=
  db.find? fun r => r.droplet_id == droplet_id

/-- Python `database.update_instance_dns`: an UPDATE of the DNS triple with no
rowcount check — it returns `True` whether or not any row matched. -/
def update_instance_dns (db : List InstanceRow) (droplet_id : Nat)
    (domain_name : String) (dns_record_id : Nat) (dns_zone : String) :
    Bool × List InstanceRow :=
  (true, db.map fun r =>
    if r.droplet_id == droplet_id then
      { r with domain_name := some domain_name,
               dns_record_id := some dns_record_id,
               dns_zone := some dns_zone }
    else r)

/-- Python `database.extend_instance_expiration`: SELECT the stored expiration,
`strptime` it, add `timedelta(days=days)`, `strftime` back and UPDATE.
A missing row returns `None`; a `ValueError` from `strptime` or an
`OverflowError` from the addition is caught by the bare `except`, returning
`None` with no UPDATE executed. -/
def extend_instance_expiration (db : List InstanceRow) (droplet_id : Nat)
    (days : Nat) : Option String × List InstanceRow :=
  match db.find? fun r => r.droplet_id == droplet_id with
  | none => (none, db)
  | some row =>
    match parseDt row.expiration_date with
    | none => (none, db)
    | some current =>
      match addDays current days with
      | none => (none, db)
      | some newExp =>
        let s := formatDt newExp
        (some s, db.map fun r =>
          if r.droplet_id == droplet_id then { r with expiration_date := s }
          else r)

theorem find?_map_keyed {α κ : Type} [BEq κ] (key : α → κ) (k : κ)
    (f : α → α) (hf : ∀ r, key (f r) = key r) (db : List α) :
    ((db.map fun r => if key r == k then f r else r).find? fun r => key r == k) =
      (db.find? fun r => key r == k).map f := by
  induction db with
  | nil => rfl
  | cons r rest ih =>
    simp only [List.map_cons]
    by_cases hk : (key r == k) = true
    · rw [if_pos hk]
      rw [@List.find?_cons_of_pos _ (fun x => key x == k) (f r) _
        (by show (key (f r) == k) = true; rw [hf r]; exact hk)]
      rw [@List.find?_cons_of_pos _ (fun x => key x == k) r _ hk]
      rfl
    · rw [if_neg hk]
      rw [@List.find?_cons_of_neg _ (fun x => key x == k) r _ hk]
      rw [@List.find?_cons_of_neg _ (fun x => key x == k) r _ hk]
      exact ih

theorem find?_append_of_none {α : Type} (p : α → Bool) {l1 : List α}
    (h : l1.find? p = none) (l2 : List α) :
    (l1 ++ l2).find? p = l2.find? p := by
  induction l1 with
  | nil => rfl
  | cons a t ih =>
    by_cases ha : p a = true
    · rw [@List.find?_cons_of_pos _ p a t ha] at h; cases h
    · rw [@List.find?_cons_of_neg _ p a t ha] at h
      rw [List.cons_append, @List.find?_cons_of_neg _ p a _ ha]
      exact ih h

/-! ### The HTTP retry helper (`create_k8s_cluster._do_request_with_retry`)

One request attempt is modelled by an `HttpEvent` (a status-code response
with an optional numeric `Retry-After` header, or a network timeout); the
environment is a map from attempt index to event.  The helper loops
`for attempt in range(MAX_RETRIES)`; a 429 sleeps and `continue`s (consuming
the loop iteration), a 5xx sleeps and retries while attempts remain,
any other non-2xx raises immediately via `raise_for_status`, and a timeout
retries while attempts remain.  Falling off the loop raises the remembered
timeout if one occurred, else a bare `RuntimeError("Max retries exceeded")`. -/

/-- The reaction of the provider to one HTTP request attempt. -/
inductive HttpEvent
  | status (code : Nat) (retryAfter : Option Nat)
  | timeout
deriving Repr, DecidableEq

/-- How `_do_request_with_retry` terminates: a returned response, a raised
`httpx.HTTPStatusError` (from `raise_for_status`), a raised/re-raised
`httpx.TimeoutException`, or the bare `RuntimeError` raised when the loop
exhausts with `last_exc is None`. -/
inductive ReqOutcome
  | success (code attempt : Nat)
  | httpError (code : Nat)
  | timeoutError
  | retriesExceeded
deriving Repr, DecidableEq

/-- Observable trace of one helper call: outcome, the sleep durations
performed in order, and how many HTTP requests were issued. -/
structure RetryTrace where
  outcome : ReqOutcome
  sleeps : List Nat
  requests : Nat
deriving Repr, DecidableEq

def MAX_RETRIES : Nat := 3

def BACKOFF_BASE : Nat := 1

/-- Loop body of `_do_request_with_retry`; `remaining` counts the loop
iterations still available (`remaining = MAX_RETRIES - attempt`), so the
Python guard `attempt < MAX_RETRIES - 1` is `0 < remaining` for the tail. -/
def retryAux (events : Nat → HttpEvent) :
    Nat → Nat → Nat → Bool → List Nat → RetryTrace
  | 0, attempt, _, sawTimeout, sleeps =>
    { outcome := if sawTimeout then .timeoutError else .retriesExceeded
      sleeps := sleeps
      requests := attempt }
  | remaining + 1, attempt, delay, sawTimeout, sleeps =>
    match events attempt with
    | .status code retryAfter =>
      if code = 429 then
        retryAux events remaining (attempt + 1) (min (delay * 2) 30) sawTimeout
          (sleeps ++ [retryAfter.getD delay])
      else if 500 ≤ code then
        if 0 < remaining then
          retryAux events remaining (attempt + 1) (min (delay * 2) 30) sawTimeout
            (sleeps ++ [delay])
        else
          { outcome := .httpError code, sleeps := sleeps, requests := attempt + 1 }
      else if 400 ≤ code then
        { outcome := .httpError code, sleeps := sleeps, requests := attempt + 1 }
      else
        { outcome := .success code attempt, sleeps := sleeps, requests := attempt + 1 }
    | .timeout =>
      if 0 < remaining then
        retryAux events remaining (attempt + 1) (min (delay * 2) 30) true
          (sleeps ++ [delay])
      else
        { outcome := .timeoutError, sleeps := sleeps, requests := attempt + 1 }

/-- The helper `_do_request_with_retry`, observed as a trace over the attempt events. -/
def do_request_with_retry (events : Nat → HttpEvent) : RetryTrace :=
  retryAux events MAX_RETRIES 0 BACKOFF_BASE false []

theorem retryAux_succ (events : Nat → HttpEvent) (rem att delay : Nat)
    (sawT : Bool) (sleeps : List Nat) :
    retryAux events (rem + 1) att delay sawT sleeps =
      (match events att with
       | .status code retryAfter =>
         if code = 429 then
           retryAux events rem (att + 1) (min (delay * 2) 30) sawT
             (sleeps ++ [retryAfter.getD delay])
         else if 500 ≤ code then
           if 0 < rem then
             retryAux events rem (att + 1) (min (delay * 2) 30) sawT (sleeps ++ [delay])
           else
             { outcome := .httpError code, sleeps := sleeps, requests := att + 1 }
         else if 400 ≤ code then
           { outcome := .httpError code, sleeps := sleeps, requests := att + 1 }
         else
           { outcome := .success code att, sleeps := sleeps, requests := att + 1 }
       | .timeout =>
         if 0 < rem then
           retryAux events rem (att + 1) (min (delay * 2) 30) true (sleeps ++ [delay])
         else
           { outcome := .timeoutError, sleeps := sleeps, requests := att + 1 }) := rfl

/-- C4 counterexample: the claim says a 429 response is followed by "a retry
that does not count against the attempt budget".  In the code the 429 branch
`continue`s inside `for attempt in range(MAX_RETRIES)`, so each 429 consumes
an attempt: with 429 on attempts 0..2 and a 200 available on attempt 3, the
helper stops after exactly 3 requests and raises the bare
`RuntimeError("Max retries exceeded")` (which also does not carry the last
error), instead of retrying through to the success. -/
theorem c4_retry_429_counterexample :
    do_request_with_retry
      (fun n => if n < 3 then HttpEvent.status 429 none else HttpEvent.status 200 none) =
      { outcome := ReqOutcome.retriesExceeded, sleeps := [1, 2, 4], requests := 3 } := by
  decide

/-- C4 (amended): through the retry helper, any non-429 4xx on the first
attempt fails immediately with no sleep after one request; a sub-400 code
returns success at once; three 5xx responses sleep 1 s then 2 s and raise a
typed HTTP failure carrying the last status; three timeouts follow the same
backoff and re-raise the timeout; a 429 sleeps the provider `Retry-After`
(or the current exponential default) and retries, but the retry DOES consume
the 3-attempt budget, and exhausting the budget on 429s alone raises a
generic failure that carries no last error. -/
theorem c4_retry_policy_amended :
    (∀ (events : Nat → HttpEvent) (code : Nat) (ra : Option Nat),
      events 0 = HttpEvent.status code ra → 400 ≤ code → code < 500 → code ≠ 429 →
      do_request_with_retry events =
        { outcome := ReqOutcome.httpError code, sleeps := [], requests := 1 }) ∧
    (∀ (events : Nat → HttpEvent) (code : Nat) (ra : Option Nat),
      events 0 = HttpEvent.status code ra → code < 400 →
      do_request_with_retry events =
        { outcome := ReqOutcome.success code 0, sleeps := [], requests := 1 }) ∧
    (∀ (events : Nat → HttpEvent) (c0 c1 c2 : Nat) (r0 r1 r2 : Option Nat),
      events 0 = HttpEvent.status c0 r0 → events 1 = HttpEvent.status c1 r1 →
      events 2 = HttpEvent.status c2 r2 → 500 ≤ c0 → 500 ≤ c1 → 500 ≤ c2 →
      do_request_with_retry events =
        { outcome := ReqOutcome.httpError c2, sleeps := [1, 2], requests := 3 }) ∧
    (∀ (events : Nat → HttpEvent),
      events 0 = HttpEvent.timeout → events 1 = HttpEvent.timeout →
      events 2 = HttpEvent.timeout →
      do_request_with_retry events =
        { outcome := ReqOutcome.timeoutError, sleeps := [1, 2], requests := 3 }) ∧
    (∀ (events : Nat → HttpEvent) (r0 r1 r2 : Nat),
      events 0 = HttpEvent.status 429 (some r0) → events 1 = HttpEvent.status 429 (some r1) →
      events 2 = HttpEvent.status 429 (some r2) →
      do_request_with_retry events =
        { outcome := ReqOutcome.retriesExceeded, sleeps := [r0, r1, r2], requests := 3 }) := by
  refine ⟨?_, ?_, ?_, ?_, ?_⟩
  · intro events code ra h0 h400 h500 h429
    rw [do_request_with_retry, MAX_RETRIES, BACKOFF_BASE,
      show (3 : Nat) = 2 + 1 from rfl, retryAux_succ, h0]
    dsimp only
    rw [if_neg h429, if_neg (by omega : ¬ 500 ≤ code), if_pos h400]
  · intro events code ra h0 hlt
    rw [do_request_with_retry, MAX_RETRIES, BACKOFF_BASE,
      show (3 : Nat) = 2 + 1 from rfl, retryAux_succ, h0]
    dsimp only
    rw [if_neg (by omega : ¬ code = 429), if_neg (by omega : ¬ 500 ≤ code),
      if_neg (by omega : ¬ 400 ≤ code)]
  · intro events c0 c1 c2 r0 r1 r2 h0 h1 h2 hc0 hc1 hc2
    rw [do_request_with_retry, MAX_RETRIES, BACKOFF_BASE,
      show (3 : Nat) = 2 + 1 from rfl, retryAux_succ, h0]
    dsimp only
    rw [if_neg (by omega : ¬ c0 = 429), if_pos hc0, if_pos (by omega : 0 < 2)]
    rw [show (2 : Nat) = 1 + 1 from rfl, retryAux_succ, h1]
    dsimp only
    rw [if_neg (by omega : ¬ c1 = 429), if_pos hc1, if_pos (by omega : 0 < 1)]
    rw [show (1 : Nat) = 0 + 1 from rfl, retryAux_succ, h2]
    dsimp only
    rw [if_neg (by omega : ¬ c2 = 429), if_pos hc2, if_neg (by omega : ¬ 0 < 0)]
    exact rfl
  · intro events h0 h1 h2
    rw [do_request_with_retry, MAX_RETRIES, BACKOFF_BASE,
      show (3 : Nat) = 2 + 1 from rfl, retryAux_succ, h0]
    dsimp only
    rw [if_pos (by omega : 0 < 2)]
    rw [show (2 : Nat) = 1 + 1 from rfl, retryAux_succ, h1]
    dsimp only
    rw [if_pos (by omega : 0 < 1)]
    rw [show (1 : Nat) = 0 + 1 from rfl, retryAux_succ, h2]
    dsimp only
    rw [if_neg (by omega : ¬ 0 < 0)]
    exact rfl
  · intro events r0 r1 r2 h0 h1 h2
    rw [do_request_with_retry, MAX_RETRIES, BACKOFF_BASE,
      show (3 : Nat) = 2 + 1 from rfl, retryAux_succ, h0]
    dsimp only
    rw [if_pos (rfl : (429 : Nat) = 429)]
    rw [show (2 : Nat) = 1 + 1 from rfl, retryAux_succ, h1]
    dsimp only
    rw [if_pos (rfl : (429 : Nat) = 429)]
    rw [show (1 : Nat) = 0 + 1 from rfl, retryAux_succ, h2]
    dsimp only
    rw [if_pos (rfl : (429 : Nat) = 429)]
    rfl

/-- Witness for C4 (amended) at concrete event streams. -/
theorem c4_retry_policy_amended_witness :
    do_request_with_retry (fun _ => HttpEvent.status 404 none) =
      { outcome := ReqOutcome.httpError 404, sleeps := [], requests := 1 } ∧
    do_request_with_retry (fun _ => HttpEvent.status 200 none) =
      { outcome := ReqOutcome.success 200 0, sleeps := [], requests := 1 } ∧
    do_request_with_retry (fun _ => HttpEvent.status 503 none) =
      { outcome := ReqOutcome.httpError 503, sleeps := [1, 2], requests := 3 } ∧
    do_request_with_retry (fun _ => HttpEvent.timeout) =
      { outcome := ReqOutcome.timeoutError, sleeps := [1, 2], requests := 3 } ∧
    do_request_with_retry (fun _ => HttpEvent.status 429 (some 7)) =
      { outcome := ReqOutcome.retriesExceeded, sleeps := [7, 7, 7], requests := 3 } :=
  ⟨c4_retry_policy_amended.1 _ 404 none rfl (by omega) (by omega) (by omega),
   c4_retry_policy_amended.2.1 _ 200 none rfl (by omega),
   c4_retry_policy_amended.2.2.1 _ 503 503 503 none none none rfl rfl rfl
     (by omega) (by omega) (by omega),
   c4_retry_policy_amended.2.2.2.1 _ rfl rfl rfl,
   c4_retry_policy_amended.2.2.2.2 _ 7 7 7 rfl rfl rfl⟩

/-! ### The cluster store and `create_k8s_cluster`

The k8s rows of the store are read and written through
`modules.database.save_k8s_cluster` / `get_k8s_cluster_by_name` /
`get_k8s_cluster_by_id` / `update_k8s_cluster_status`.  Those functions are
imported by the sources at hand but their defining module section is not
among them, so they are modelled from the spec (and the behaviour pinned by
`tests/test_database_k8s.py`). -/

/-- One row of the `clusters` table. -/
structure ClusterRow where
  cluster_id : String
  cluster_name : String
  region : String
  version : String
  node_size : String
  node_count : Nat
  status : String
  endpoint : String
  creator_id : Nat
  creator_username : Option String
  expiration_date : String
  created_at : String
  price_hourly : Option Rat
  ha : Bool
deriving Repr, DecidableEq

/-- Modelled from the spec: `save_k8s_cluster` (absent from the sources at
hand) persists a freshly created cluster row — spec §3 "created in
`provisioning` state at request time", store owns persisted state. -/
def save_k8s_cluster (db : List ClusterRow) (row : ClusterRow) : List ClusterRow :=
  db ++ [row]

/-- Modelled from the spec: `get_k8s_cluster_by_id` (absent from the sources
at hand) is a point lookup by provider-assigned ID, `None` when absent. -/
def get_k8s_cluster_by_id (db : List ClusterRow) (cluster_id : String) :
    Option ClusterRow :=
  db.find? fun r => r.cluster_id == cluster_id

/-- Modelled from the spec: `get_k8s_cluster_by_name` (absent from the
sources at hand) implements the creation idempotency check — spec §3
"name is unique among the non-deleted clusters of a creator"; the repository
tests pin that rows with status `deleted` or another creator are ignored. -/
def get_k8s_cluster_by_name (db : List ClusterRow) (name : String)
    (creator_id : Nat) : Option ClusterRow :=
  db.find? fun r =>
    r.cluster_name == name && r.creator_id == creator_id && r.status != "deleted"

/-- Modelled from the spec: `update_k8s_cluster_status` (absent from the
sources at hand) — spec §4.2 `updateStatus(id, status, endpoint?)`, an
atomic single-row update that reports absence distinctly from success. -/
def update_k8s_cluster_status (db : List ClusterRow) (cluster_id status : String)
    (endpoint : Option String) : Bool × List ClusterRow :=
  if (db.find? fun r => r.cluster_id == cluster_id).isSome then
    (true, db.map fun r =>
      if r.cluster_id == cluster_id then
        { r with status := status, endpoint := endpoint.getD r.endpoint }
      else r)
  else (false, db)

/-- Result dictionary of `create_k8s_cluster` (the `kubeconfig` key is
always `None` and is omitted). -/
structure K8sCreateResult where
  success : Bool
  message : String
  cluster_id : Option String
  cluster_name : Option String
  status : Option String
  endpoint : Option String
  region : Option String
  version : Option String
  node_size : Option String
  node_count : Option Nat
  price_hourly : Option Rat
  expiration_date : Option String
deriving Repr, DecidableEq

/-- Side effects of `create_k8s_cluster` towards the provider and the store. -/
inductive K8sEffect
  | httpPost
  | dbSave (cluster_id : String)
deriving Repr, DecidableEq

/-- Outcome of the POST to the cluster-create endpoint of the provider. -/
inductive K8sHttp
  | ok (cluster_id cluster_name status endpoint : String)
  | err (msg : String)
deriving Repr, DecidableEq

/-- Python `create_k8s_cluster`: the idempotency check runs first and, when a
non-deleted same-name row exists for the creator, returns the failure dict
carrying the ID of the existing cluster, without any HTTP call or store write.
Otherwise the expiry timestamps are computed (`none` models the uncaught
`OverflowError` of an out-of-range `timedelta` addition), the POST is made,
and on success the row is saved. -/
def create_k8s_cluster (db : List ClusterRow) (now : Dt) (http : K8sHttp)
    (name region version node_size : String) (node_count duration creator_id : Nat)
    (creator_username : Option String) (price_hourly : Option Rat) (ha : Bool) :
    Option (K8sCreateResult × List K8sEffect × List ClusterRow) :=
  match get_k8s_cluster_by_name db name creator_id with
  | some existing =>
    some (⟨false, "Кластер с именем \x27" ++ name ++ "\x27 уже существует.",
      some existing.cluster_id, some existing.cluster_name, some existing.status,
      none, none, none, none, none, none, none⟩, [], db)
  | none =>
    match addDays now duration with
    | none => none
    | some expDt =>
      let expiration_date := formatDt expDt
      let created_at := formatDt now
      match http with
      | .ok cid cname cstatus cendpoint =>
        some (⟨true, "Кластер создаётся (~5-10 мин).", some cid, some cname,
          some cstatus, some cendpoint, some region, some version, some node_size,
          some node_count, price_hourly, some expiration_date⟩,
          [K8sEffect.httpPost, K8sEffect.dbSave cid],
          save_k8s_cluster db ⟨cid, cname, region, version, node_size, node_count,
            cstatus, cendpoint, creator_id, creator_username, expiration_date,
            created_at, price_hourly, ha⟩)
      | .err msg =>
        some (⟨false, msg, none, none, none, none, none, none, none, none,
          none, none⟩, [K8sEffect.httpPost], db)

/-! ### The expiry sweep (`bot.notify_and_check_instances`)

Datetimes are compared through `(expiration - datetime.now()).total_seconds()`;
for the sweep this is modelled on an epoch-seconds scale: `datetime.now()` is
an integer `now`, `datetime.fromtimestamp(t)` is `t` itself, and a parsed
datetime is mapped to epoch seconds through `dtToEpoch` (days counted by the
proleptic Gregorian calendar).  The provider and messenger are oracles fixed
per item; each loop iteration is wrapped in `try/except Exception`, so an
exception inside one item is absorbed into the event list of that item and
the loop moves on — `processInstance`/`processCluster` are therefore total,
and the sweep is their `List.map` over both due sets. -/

/-- Cumulative days in the months `1..m` of year `y`. -/
def daysUptoMonth (y : Nat) : Nat → Nat
  | 0 => 0
  | m + 1 => daysUptoMonth y m + daysInMonth y (m + 1)

/-- Day number of a date in the proleptic Gregorian calendar. -/
def rataDie (d : Dt) : Nat :=
  365 * (d.year - 1) +
    ((d.year - 1) / 4 - (d.year - 1) / 100 + (d.year - 1) / 400) +
    daysUptoMonth d.year (d.month - 1) + (d.day - 1)

/-- A datetime on the epoch-seconds scale used to compare with `now`. -/
def dtToEpoch (d : Dt) : Int :=
  86400 * (rataDie d : Int) + 3600 * (d.hour : Int) + 60 * (d.minute : Int) +
    (d.second : Int)

/-- A stored `expiration_date` as the sweep receives it: historically either
an integer timestamp or a `"%Y-%m-%d %H:%M:%S"` string. -/
inductive ExpStored
  | asInt (t : Int)
  | asStr (s : String)
deriving Repr, DecidableEq

/-- Normalisation of a stored expiration into epoch seconds:
`datetime.fromtimestamp` on the integer form, `strptime` on the string form
(`none` = `ValueError`, which the sweep handles by skipping the item). -/
def expirationEpoch : ExpStored → Option Int
  | .asInt t => some t
  | .asStr s => (parseDt s).map dtToEpoch

/-- The fields of an expiring-instance row that the sweep reads. -/
structure SweepInstance where
  droplet_id : Nat
  name : String
  ip_address : String
  droplet_type : String
  expiration_date : ExpStored
  creator_id : Nat
  creator_username : Option String
  dns_zone : Option String
  dns_record_id : Option Nat
deriving Repr, DecidableEq

/-- The fields of an expiring-cluster row that the sweep reads. -/
structure SweepCluster where
  cluster_id : String
  cluster_name : String
  region : String
  node_size : String
  node_count : Nat
  expiration_date : ExpStored
  creator_id : Nat
  creator_username : Option String
deriving Repr, DecidableEq

/-- The `create_snapshot` oracle: returns success carrying an action id,
returns failure, or raises (e.g. a non-HTTP error). -/
inductive SnapOutcome
  | ok (action_id : Nat)
  | fail
  | raises
deriving Repr, DecidableEq

/-- The `wait_for_action` oracle: completed, errored/timeout, or raises. -/
inductive WaitOutcome
  | ok
  | fail
  | raises
deriving Repr, DecidableEq

/-- The `delete_droplet` / `delete_k8s_cluster` oracle. -/
inductive DelOutcome
  | ok
  | fail
  | raises
deriving Repr, DecidableEq

/-- Per-item environment for one instance of the sweep. -/
structure InstanceOracle where
  warnSendOk : Bool
  snap : SnapOutcome
  wait : WaitOutcome
  del : DelOutcome
deriving Repr, DecidableEq

/-- Per-item environment for one cluster of the sweep. -/
structure ClusterOracle where
  warnSendOk : Bool
  del : DelOutcome
deriving Repr, DecidableEq

/-- Observable events of processing one item of the sweep. -/
inductive SweepEvent
  | parseError
  | warned (creator_id : Nat)
  | warnSendError
  | snapshotCreatedNotif
  | deleteCalled
  | autoDeletedNotif
  | deleteFailedLog
  | itemError
deriving Repr, DecidableEq

/-- One iteration of the instance loop of `notify_and_check_instances`,
including its `try/except` wrappers: an unparsable expiration skips the item
(`continue`); a warning-window instance gets the warning direct message
(failures of the send are caught and logged); a due instance gets the
best-effort snapshot (any failure logged, never blocking) and then
`delete_droplet`, with `auto_deleted` notified on success; an exception from
the delete call itself is caught by the per-item handler. -/
def processInstance (now : Int) (inst : SweepInstance) (orc : InstanceOracle) :
    List SweepEvent :=
  match expirationEpoch inst.expiration_date with
  | none => [.parseError]
  | some expEpoch =>
    let timeLeft : Int := expEpoch - now
    if 0 < timeLeft ∧ timeLeft ≤ 86400 then
      if orc.warnSendOk then [.warned inst.creator_id] else [.warnSendError]
    else if timeLeft ≤ 0 then
      (match orc.snap with
       | .ok _ =>
         match orc.wait with
         | .ok => [SweepEvent.snapshotCreatedNotif]
         | .fail => []
         | .raises => []
       | .fail => []
       | .raises => []) ++
      (match orc.del with
       | .ok => [SweepEvent.deleteCalled, SweepEvent.autoDeletedNotif]
       | .fail => [SweepEvent.deleteCalled, SweepEvent.deleteFailedLog]
       | .raises => [SweepEvent.deleteCalled, SweepEvent.itemError])
    else []

/-- One iteration of the cluster loop of `notify_and_check_instances`.
An integer-typed stored expiration is left unconverted by this loop, so the
subtraction from `datetime.now()` raises `TypeError`, caught by the per-item
handler; clusters have no snapshot step. -/
def processCluster (now : Int) (cl : SweepCluster) (orc : ClusterOracle) :
    List SweepEvent :=
  match cl.expiration_date with
  | .asInt _ => [.itemError]
  | .asStr s =>
    match parseDt s with
    | none => [.parseError]
    | some d =>
      let timeLeft : Int := dtToEpoch d - now
      if 0 < timeLeft ∧ timeLeft ≤ 86400 then
        if orc.warnSendOk then [.warned cl.creator_id] else [.warnSendError]
      else if timeLeft ≤ 0 then
        match orc.del with
        | .ok => [SweepEvent.deleteCalled, SweepEvent.autoDeletedNotif]
        | .fail => [SweepEvent.deleteCalled, SweepEvent.deleteFailedLog]
        | .raises => [SweepEvent.deleteCalled, SweepEvent.itemError]
      else []

/-- Python `notify_and_check_instances`: the instance loop over the due-instance
query result followed by the cluster loop over the due-cluster query result,
each item processed independently under its own oracle. -/
def notify_and_check_instances (now : Int)
    (instances : List (SweepInstance × InstanceOracle))
    (clusters : List (SweepCluster × ClusterOracle)) :
    List (Nat × List SweepEvent) × List (String × List SweepEvent) :=
  (instances.map fun p => (p.1.droplet_id, processInstance now p.1 p.2),
   clusters.map fun p => (p.1.cluster_id, processCluster now p.1 p.2))

/-! ### The provisioning fast-poll (`bot.poll_provisioning_clusters`) -/

/-- Result dict of `get_k8s_cluster` (the live status probe). -/
structure PollStatusResult where
  success : Bool
  status : Option String
  endpoint : String
deriving Repr, DecidableEq

/-- Outcome of `get_kubeconfig`. -/
inductive KubeFetch
  | ok (kubeconfig : String)
  | err
deriving Repr, DecidableEq

/-- Observable outcome of one iteration of the fast-poll loop. -/
structure PollResult where
  db : List ClusterRow
  creatorMessages : List String
  documentsSent : List String
  broadcasts : List String
deriving Repr, DecidableEq

/-- The degraded-state caveat appended to the readiness message. -/
def degradedCaveat : String :=
  "\n⚠️ Кластер запущен в деградированном состоянии."

/-- One iteration of `poll_provisioning_clusters` for one provisioning
cluster: a failed status probe skips the cluster; live `running`/`degraded`
stores status `running` with the live endpoint (skipping on a failed store
update), sends the readiness direct message (with the degraded caveat only
for `degraded`), attaches the kubeconfig when its fetch succeeded, and
broadcasts `ready`; live `errored` stores `errored`, messages the creator
and broadcasts `errored`; any other live status does nothing. -/
def poll_provisioning_cluster (db : List ClusterRow) (cl : SweepCluster)
    (live : PollStatusResult) (kube : KubeFetch) : PollResult :=
  if live.success = false then ⟨db, [], [], []⟩
  else if live.status = some "running" ∨ live.status = some "degraded" then
    let upd := update_k8s_cluster_status db cl.cluster_id "running" (some live.endpoint)
    if upd.1 = false then ⟨upd.2, [], [], []⟩
    else
      let degraded_note := if live.status = some "degraded" then degradedCaveat else ""
      let endpoint_line :=
        if live.endpoint ≠ "" then "\nEndpoint: <code>" ++ live.endpoint ++ "</code>"
        else ""
      let msg := "K8s кластер <b>" ++ cl.cluster_name ++ "</b> готов!" ++
        endpoint_line ++ degraded_note
      let docs :=
        match kube with
        | .ok _ => ["kubeconfig-" ++ cl.cluster_name ++ ".yaml"]
        | .err => []
      ⟨upd.2, [msg], docs, ["ready"]⟩
  else if live.status = some "errored" then
    let upd := update_k8s_cluster_status db cl.cluster_id "errored" none
    ⟨upd.2, ["K8s кластер <b>" ++ cl.cluster_name ++ "</b> завершился с ошибкой при создании."],
      [], ["errored"]⟩
  else ⟨db, [], [], []⟩

/-- C1: expiry classification boundary.  For every due resource (instance or
cluster) with a normalised expiration, `secondsLeft = expiration - now`
classifies it: `0 < secondsLeft ≤ 86400` takes the warning path (the warning
direct message, and nothing else — in particular no delete call);
`secondsLeft ≤ 0` takes the delete path (the delete call happens, no warning
is sent); `secondsLeft > 86400` does nothing.  Both boundaries are as
claimed: 86400 belongs to the warning path, 0 to the deletion path. -/
theorem c1_expiry_classification_boundary (now : Int) :
    (∀ (inst : SweepInstance) (orc : InstanceOracle) (expEpoch : Int),
      expirationEpoch inst.expiration_date = some expEpoch →
      ((0 < expEpoch - now ∧ expEpoch - now ≤ 86400 →
        processInstance now inst orc =
          [if orc.warnSendOk then SweepEvent.warned inst.creator_id
           else SweepEvent.warnSendError]) ∧
       (expEpoch - now ≤ 0 →
        SweepEvent.deleteCalled ∈ processInstance now inst orc ∧
        ∀ cid, SweepEvent.warned cid ∉ processInstance now inst orc) ∧
       (86400 < expEpoch - now → processInstance now inst orc = []))) ∧
    (∀ (cl : SweepCluster) (orc : ClusterOracle) (s : String) (d : Dt),
      cl.expiration_date = ExpStored.asStr s → parseDt s = some d →
      ((0 < dtToEpoch d - now ∧ dtToEpoch d - now ≤ 86400 →
        processCluster now cl orc =
          [if orc.warnSendOk then SweepEvent.warned cl.creator_id
           else SweepEvent.warnSendError]) ∧
       (dtToEpoch d - now ≤ 0 →
        SweepEvent.deleteCalled ∈ processCluster now cl orc ∧
        ∀ cid, SweepEvent.warned cid ∉ processCluster now cl orc) ∧
       (86400 < dtToEpoch d - now → processCluster now cl orc = []))) := by
  constructor
  · intro inst orc expEpoch h
    refine ⟨?_, ?_, ?_⟩
    · intro hw
      unfold processInstance
      rw [h]
      dsimp only
      rw [if_pos hw]
      cases orc.warnSendOk <;> rfl
    · intro hd
      unfold processInstance
      rw [h]
      dsimp only
      rw [if_neg (by omega), if_pos hd]
      constructor
      · cases orc.snap <;> cases orc.wait <;> cases orc.del <;> simp
      · intro cid
        cases orc.snap <;> cases orc.wait <;> cases orc.del <;> simp
    · intro hn
      unfold processInstance
      rw [h]
      dsimp only
      rw [if_neg (by omega), if_neg (by omega)]
  · intro cl orc s d hs hparse
    refine ⟨?_, ?_, ?_⟩
    · intro hw
      unfold processCluster
      rw [hs]
      dsimp only
      rw [hparse]
      dsimp only
      rw [if_pos hw]
      cases orc.warnSendOk <;> rfl
    · intro hd
      unfold processCluster
      rw [hs]
      dsimp only
      rw [hparse]
      dsimp only
      rw [if_neg (by omega), if_pos hd]
      constructor
      · cases orc.del <;> simp
      · intro cid
        cases orc.del <;> simp
    · intro hn
      unfold processCluster
      rw [hs]
      dsimp only
      rw [hparse]
      dsimp only
      rw [if_neg (by omega), if_neg (by omega)]

/-- Witness for C1 at the exact boundaries: expiration = now + 86400 warns,
expiration = now deletes, expiration = now + 86401 does nothing. -/
theorem c1_expiry_classification_boundary_witness :
    (processInstance 1000 ⟨7, "vm", "10.0.0.1", "t", ExpStored.asInt 87400, 42,
        none, none, none⟩ ⟨true, SnapOutcome.fail, WaitOutcome.fail, DelOutcome.ok⟩ =
      [SweepEvent.warned 42]) ∧
    (SweepEvent.deleteCalled ∈ processInstance 1000 ⟨7, "vm", "10.0.0.1", "t",
        ExpStored.asInt 1000, 42, none, none, none⟩
        ⟨true, SnapOutcome.fail, WaitOutcome.fail, DelOutcome.ok⟩) ∧
    (processInstance 1000 ⟨7, "vm", "10.0.0.1", "t", ExpStored.asInt 87401, 42,
        none, none, none⟩ ⟨true, SnapOutcome.fail, WaitOutcome.fail, DelOutcome.ok⟩ = []) := by
  refine ⟨?_, ?_, ?_⟩
  · exact (((c1_expiry_classification_boundary 1000).1
      ⟨7, "vm", "10.0.0.1", "t", ExpStored.asInt 87400, 42, none, none, none⟩
      ⟨true, SnapOutcome.fail, WaitOutcome.fail, DelOutcome.ok⟩ 87400 rfl).1 (by omega))
  · exact ((((c1_expiry_classification_boundary 1000).1
      ⟨7, "vm", "10.0.0.1", "t", ExpStored.asInt 1000, 42, none, none, none⟩
      ⟨true, SnapOutcome.fail, WaitOutcome.fail, DelOutcome.ok⟩ 1000 rfl).2.1 (by omega)).1)
  · exact (((c1_expiry_classification_boundary 1000).1
      ⟨7, "vm", "10.0.0.1", "t", ExpStored.asInt 87401, 42, none, none, none⟩
      ⟨true, SnapOutcome.fail, WaitOutcome.fail, DelOutcome.ok⟩ 87401 rfl).2.2 (by omega))

/-- C2: snapshot failure never blocks deletion.  For a due-for-deletion VM,
`delete_droplet` is called no matter how the snapshot step went; when any of
`create_snapshot` / `wait_for_action` fails or raises, no `snapshot_created`
notification is emitted, and a successful delete still emits `auto_deleted`;
`snapshot_created` is emitted exactly when both snapshot calls succeed. -/
theorem c2_snapshot_failure_never_blocks_deletion (now expEpoch : Int)
    (inst : SweepInstance) (orc : InstanceOracle)
    (hexp : expirationEpoch inst.expiration_date = some expEpoch)
    (hdue : expEpoch - now ≤ 0) :
    SweepEvent.deleteCalled ∈ processInstance now inst orc ∧
    ((orc.snap = SnapOutcome.fail ∨ orc.snap = SnapOutcome.raises ∨
      orc.wait = WaitOutcome.fail ∨ orc.wait = WaitOutcome.raises) →
      SweepEvent.snapshotCreatedNotif ∉ processInstance now inst orc) ∧
    (orc.del = DelOutcome.ok →
      SweepEvent.autoDeletedNotif ∈ processInstance now inst orc) ∧
    (SweepEvent.snapshotCreatedNotif ∈ processInstance now inst orc ↔
      (∃ a, orc.snap = SnapOutcome.ok a) ∧ orc.wait = WaitOutcome.ok) := by
  unfold processInstance
  rw [hexp]
  dsimp only
  rw [if_neg (by omega), if_pos hdue]
  refine ⟨?_, ?_, ?_, ?_⟩
  · cases orc.snap <;> cases orc.wait <;> cases orc.del <;> simp
  · intro hfail
    cases h1 : orc.snap <;> cases h2 : orc.wait <;> cases orc.del <;>
      simp_all
  · intro hdel
    cases orc.snap <;> cases orc.wait <;> rw [hdel] <;> simp
  · cases h1 : orc.snap <;> cases h2 : orc.wait <;> cases orc.del <;> simp_all

/-- Witness for C2: a due VM whose snapshot creation fails is still deleted,
emits `auto_deleted`, and emits no `snapshot_created`. -/
theorem c2_snapshot_failure_never_blocks_deletion_witness :
    SweepEvent.deleteCalled ∈ processInstance 0
      ⟨7, "vm", "10.0.0.1", "t", ExpStored.asInt 0, 42, none, none, none⟩
      ⟨true, SnapOutcome.fail, WaitOutcome.fail, DelOutcome.ok⟩ ∧
    SweepEvent.snapshotCreatedNotif ∉ processInstance 0
      ⟨7, "vm", "10.0.0.1", "t", ExpStored.asInt 0, 42, none, none, none⟩
      ⟨true, SnapOutcome.fail, WaitOutcome.fail, DelOutcome.ok⟩ ∧
    SweepEvent.autoDeletedNotif ∈ processInstance 0
      ⟨7, "vm", "10.0.0.1", "t", ExpStored.asInt 0, 42, none, none, none⟩
      ⟨true, SnapOutcome.fail, WaitOutcome.fail, DelOutcome.ok⟩ := by
  have h := c2_snapshot_failure_never_blocks_deletion 0 0
    ⟨7, "vm", "10.0.0.1", "t", ExpStored.asInt 0, 42, none, none, none⟩
    ⟨true, SnapOutcome.fail, WaitOutcome.fail, DelOutcome.ok⟩ rfl (by omega)
  exact ⟨h.1, h.2.1 (Or.inl rfl), h.2.2.1 rfl⟩

/-- C3: per-item failure isolation.  The sweep is an independent map over
the due-instance list and then the due-cluster list: for any item in either
list — whatever its oracle does, including raising, and including an
unparsable stored expiration, which produces exactly a parse-error skip for
that item — every other item in both loops is processed in the same run with
exactly the events it would produce on its own. -/
theorem c3_per_item_failure_isolation (now : Int)
    (xs ys : List (SweepInstance × InstanceOracle))
    (x : SweepInstance × InstanceOracle)
    (cs ds : List (SweepCluster × ClusterOracle))
    (c : SweepCluster × ClusterOracle) :
    (notify_and_check_instances now (xs ++ x :: ys) (cs ++ c :: ds) =
      ((notify_and_check_instances now xs []).1 ++
        (x.1.droplet_id, processInstance now x.1 x.2) ::
          (notify_and_check_instances now ys []).1,
       (notify_and_check_instances now [] cs).2 ++
        (c.1.cluster_id, processCluster now c.1 c.2) ::
          (notify_and_check_instances now [] ds).2)) ∧
    (expirationEpoch x.1.expiration_date = none →
      processInstance now x.1 x.2 = [SweepEvent.parseError]) ∧
    (notify_and_check_instances now (xs ++ x :: ys) (cs ++ c :: ds)).1.length =
      xs.length + 1 + ys.length ∧
    (notify_and_check_instances now (xs ++ x :: ys) (cs ++ c :: ds)).2.length =
      cs.length + 1 + ds.length := by
  refine ⟨?_, ?_, ?_, ?_⟩
  · simp [notify_and_check_instances]
  · intro h
    unfold processInstance
    rw [h]
  · simp [notify_and_check_instances]
    omega
  · simp [notify_and_check_instances]
    omega

/-- Witness for C3: a middle instance with an unparsable expiration and a
middle cluster whose delete raises do not stop the items after them. -/
theorem c3_per_item_failure_isolation_witness :
    (notify_and_check_instances 999999999999
      [(⟨1, "a", "ip1", "t", ExpStored.asInt 1000000086399, 11, none, none, none⟩,
        ⟨true, SnapOutcome.fail, WaitOutcome.fail, DelOutcome.ok⟩),
       (⟨2, "b", "ip2", "t", ExpStored.asStr "not-a-date", 12, none, none, none⟩,
        ⟨true, SnapOutcome.fail, WaitOutcome.fail, DelOutcome.ok⟩),
       (⟨3, "c", "ip3", "t", ExpStored.asInt 0, 13, none, none, none⟩,
        ⟨true, SnapOutcome.ok 5, WaitOutcome.ok, DelOutcome.ok⟩)]
      [(⟨"k1", "ca", "fra1", "s", 2, ExpStored.asInt 0, 21, none⟩,
        ⟨true, DelOutcome.raises⟩),
       (⟨"k2", "cb", "fra1", "s", 2, ExpStored.asStr "2024-01-02 03:04:05", 22, none⟩,
        ⟨true, DelOutcome.ok⟩)] =
      ([(1, [SweepEvent.warned 11]),
        (2, [SweepEvent.parseError]),
        (3, [SweepEvent.snapshotCreatedNotif, SweepEvent.deleteCalled,
             SweepEvent.autoDeletedNotif])],
       [("k1", [SweepEvent.itemError]),
        ("k2", [SweepEvent.deleteCalled, SweepEvent.autoDeletedNotif])])) ∧
    processInstance 0
      (⟨2, "b", "ip2", "t", ExpStored.asStr "not-a-date", 12, none, none, none⟩)
      (⟨true, SnapOutcome.fail, WaitOutcome.fail, DelOutcome.ok⟩) =
      [SweepEvent.parseError] := by
  constructor
  · have h := (c3_per_item_failure_isolation 999999999999
      [(⟨1, "a", "ip1", "t", ExpStored.asInt 1000000086399, 11, none, none, none⟩,
        ⟨true, SnapOutcome.fail, WaitOutcome.fail, DelOutcome.ok⟩)]
      [(⟨3, "c", "ip3", "t", ExpStored.asInt 0, 13, none, none, none⟩,
        ⟨true, SnapOutcome.ok 5, WaitOutcome.ok, DelOutcome.ok⟩)]
      (⟨2, "b", "ip2", "t", ExpStored.asStr "not-a-date", 12, none, none, none⟩,
        ⟨true, SnapOutcome.fail, WaitOutcome.fail, DelOutcome.ok⟩)
      [(⟨"k1", "ca", "fra1", "s", 2, ExpStored.asInt 0, 21, none⟩,
        ⟨true, DelOutcome.raises⟩)]
      []
      (⟨"k2", "cb", "fra1", "s", 2, ExpStored.asStr "2024-01-02 03:04:05", 22, none⟩,
        ⟨true, DelOutcome.ok⟩)).1
    exact h.trans (by decide)
  · exact (c3_per_item_failure_isolation 0 [] []
      (⟨2, "b", "ip2", "t", ExpStored.asStr "not-a-date", 12, none, none, none⟩,
        ⟨true, SnapOutcome.fail, WaitOutcome.fail, DelOutcome.ok⟩)
      [] [] (⟨"k", "c", "r", "s", 1, ExpStored.asInt 0, 0, none⟩,
        ⟨true, DelOutcome.ok⟩)).2.1 (by decide)

theorem instanceFind_update (db : List InstanceRow) (id : Nat)
    (f : InstanceRow → InstanceRow) (hf : ∀ r, (f r).droplet_id = r.droplet_id) :
    (List.find? (fun r => r.droplet_id == id)
        (db.map fun r => if r.droplet_id == id then f r else r)) =
      (List.find? (fun r => r.droplet_id == id) db).map f :=
  find?_map_keyed (fun r => r.droplet_id) id f hf db

theorem clusterFind_update (db : List ClusterRow) (id : String)
    (f : ClusterRow → ClusterRow) (hf : ∀ r, (f r).cluster_id = r.cluster_id) :
    (List.find? (fun r => r.cluster_id == id)
        (db.map fun r => if r.cluster_id == id then f r else r)) =
      (List.find? (fun r => r.cluster_id == id) db).map f :=
  find?_map_keyed (fun r => r.cluster_id) id f hf db

/-- C5: idempotent cluster creation.  When the name lookup finds a
non-deleted cluster of the same creator, `create_k8s_cluster` returns the
failure dict carrying the ID of the existing cluster, performs no HTTP POST to
the cluster-create endpoint and no store write, and leaves the store
unchanged. -/
theorem c5_idempotent_cluster_creation
    (db : List ClusterRow) (now : Dt) (http : K8sHttp)
    (name region version node_size : String) (node_count duration creator_id : Nat)
    (creator_username : Option String) (price_hourly : Option Rat) (ha : Bool)
    (existing : ClusterRow)
    (h : get_k8s_cluster_by_name db name creator_id = some existing) :
    create_k8s_cluster db now http name region version node_size node_count
        duration creator_id creator_username price_hourly ha =
      some (⟨false, "Кластер с именем \x27" ++ name ++ "\x27 уже существует.",
        some existing.cluster_id, some existing.cluster_name, some existing.status,
        none, none, none, none, none, none, none⟩, [], db) := by
  unfold create_k8s_cluster
  rw [h]

/-- Witness for C5: a second `create` with an existing name returns the
ID of the stored cluster with no effects. -/
theorem c5_idempotent_cluster_creation_witness :
    create_k8s_cluster
      [⟨"cid-1", "demo", "fra1", "1.29.0-do.0", "s-2vcpu-4gb", 2, "provisioning",
        "", 42, none, "2025-01-08 12:00:00", "2025-01-01 12:00:00", none, false⟩]
      ⟨2025, 1, 2, 3, 4, 5⟩ (K8sHttp.ok "x" "x" "x" "x") "demo" "fra1" "1.29.0-do.0"
      "s-2vcpu-4gb" 2 7 42 none none false =
    some (⟨false, "Кластер с именем \x27demo\x27 уже существует.",
      some "cid-1", some "demo", some "provisioning",
      none, none, none, none, none, none, none⟩, [],
      [⟨"cid-1", "demo", "fra1", "1.29.0-do.0", "s-2vcpu-4gb", 2, "provisioning",
        "", 42, none, "2025-01-08 12:00:00", "2025-01-01 12:00:00", none, false⟩]) :=
  c5_idempotent_cluster_creation _ _ _ _ _ _ _ _ _ _ _ _ _
    ⟨"cid-1", "demo", "fra1", "1.29.0-do.0", "s-2vcpu-4gb", 2, "provisioning",
      "", 42, none, "2025-01-08 12:00:00", "2025-01-01 12:00:00", none, false⟩
    (by decide)

/-- C6 counterexample: the claim requires `update_instance_dns` to report
"no such row" distinctly from a successful single-row update.  It returns
`True` in both cases — on an empty table (no row 999) and on a table where
row 400 was actually updated — exactly as the repository test
`test_update_nonexistent_instance` pins ("Should still return True"). -/
theorem c6_dns_update_counterexample :
    (update_instance_dns [] 999 "sub.example.com" 99999 "example.com").1 = true ∧
    (update_instance_dns
        [⟨400, "dns-drop", "1.2.3.4", "s-2vcpu-2gb", "2025-01-08 12:00:00", 1, 42,
          none, none, none, none, none, none⟩]
        400 "sub.example.com" 99999 "example.com").1 = true ∧
    (update_instance_dns
        [⟨400, "dns-drop", "1.2.3.4", "s-2vcpu-2gb", "2025-01-08 12:00:00", 1, 42,
          none, none, none, none, none, none⟩]
        400 "sub.example.com" 99999 "example.com").2 ≠
      [⟨400, "dns-drop", "1.2.3.4", "s-2vcpu-2gb", "2025-01-08 12:00:00", 1, 42,
        none, none, none, none, none, none⟩] := by
  refine ⟨rfl, rfl, by decide⟩

/-- C6 (amended): `extend_instance_expiration` does report absence distinctly
from success — a missing row yields `None` (and no change), while any
completed update yields the new expiration string; `update_instance_dns`,
however, returns `True` whether or not a row matched (no rowcount check), so
it does NOT distinguish "no such row" from a successful single-row update. -/
theorem c6_absence_reporting_amended :
    (∀ (db : List InstanceRow) (id days : Nat),
      get_instance_by_id db id = none →
      extend_instance_expiration db id days = (none, db)) ∧
    (∀ (db : List InstanceRow) (id days : Nat) (row : InstanceRow) (d0 d1 : Dt),
      get_instance_by_id db id = some row →
      parseDt row.expiration_date = some d0 →
      addDays d0 days = some d1 →
      (extend_instance_expiration db id days).1 = some (formatDt d1)) ∧
    (∀ (db : List InstanceRow) (id : Nat) (domain : String) (recordId : Nat)
      (zone : String), (update_instance_dns db id domain recordId zone).1 = true) := by
  refine ⟨?_, ?_, ?_⟩
  · intro db id days h
    have hf : List.find? (fun r => r.droplet_id == id) db = none := h
    unfold extend_instance_expiration
    rw [hf]
  · intro db id days row d0 d1 h hp ha
    have hf : List.find? (fun r => r.droplet_id == id) db = some row := h
    unfold extend_instance_expiration
    rw [hf]
    dsimp only
    rw [hp]
    dsimp only
    rw [ha]
  · intro db id domain recordId zone
    rfl

/-- Witness for C6 (amended) on a one-row table. -/
theorem c6_absence_reporting_amended_witness :
    extend_instance_expiration
      [⟨1, "vm", "1.2.3.4", "t", "2025-01-08 12:00:00", 1, 42, none, none, none,
        none, none, none⟩] 2 3 =
      (none, [⟨1, "vm", "1.2.3.4", "t", "2025-01-08 12:00:00", 1, 42, none, none,
        none, none, none, none⟩]) ∧
    (extend_instance_expiration
      [⟨1, "vm", "1.2.3.4", "t", "2025-01-08 12:00:00", 1, 42, none, none, none,
        none, none, none⟩] 1 3).1 = some (formatDt ⟨2025, 1, 11, 12, 0, 0⟩) ∧
    (update_instance_dns [] 5 "d.example.com" 9 "example.com").1 = true := by
  refine ⟨?_, ?_, ?_⟩
  · exact c6_absence_reporting_amended.1 _ 2 3 (by decide)
  · exact c6_absence_reporting_amended.2.1 _ 1 3
      ⟨1, "vm", "1.2.3.4", "t", "2025-01-08 12:00:00", 1, 42, none, none, none,
        none, none, none⟩ ⟨2025, 1, 8, 12, 0, 0⟩ ⟨2025, 1, 11, 12, 0, 0⟩
      (by decide) (by decide) (by decide)
  · exact c6_absence_reporting_amended.2.2 [] 5 "d.example.com" 9 "example.com"

/-- C7 counterexample: the claim quantifies over EVERY existing instance
whose stored expiration parses in the `"%Y-%m-%d %H:%M:%S"` format.  For the
parseable expiration `"9999-12-31 00:00:00"`, adding `timedelta(days=3)`
overflows `datetime.max`; the bare `except` catches the `OverflowError` and
returns `None` with no UPDATE, so two calls leave the stored expiration
unchanged instead of shifting it by `2*days`. -/
theorem c7_extend_overflow_counterexample :
    extend_instance_expiration
      [⟨1, "vm", "1.2.3.4", "t", "9999-12-31 00:00:00", 1, 42, none, none, none,
        none, none, none⟩] 1 3 =
      (none, [⟨1, "vm", "1.2.3.4", "t", "9999-12-31 00:00:00", 1, 42, none, none,
        none, none, none, none⟩]) ∧
    extend_instance_expiration
      (extend_instance_expiration
        [⟨1, "vm", "1.2.3.4", "t", "9999-12-31 00:00:00", 1, 42, none, none, none,
          none, none, none⟩] 1 3).2 1 3 =
      (none, [⟨1, "vm", "1.2.3.4", "t", "9999-12-31 00:00:00", 1, 42, none, none,
        none, none, none, none⟩]) := by
  refine ⟨by decide, by decide⟩

/-- C7 (amended): extend is additive, not set-once, whenever the shifted
dates stay representable: for an existing instance whose stored expiration
parses to a datetime with a four-digit-rendered year (`year ≥ 1000`), and
whose two `+days` shifts stay at or below year 9999 (`datetime.max`), two
sequential calls return the once- and twice-shifted expirations, the stored
value ends up at the original plus `2*days` days, and for a nonexistent id
both calls return `None` with the table unchanged (no row created). -/
theorem c7_extend_additive_amended
    (db : List InstanceRow) (id days : Nat) (row : InstanceRow) (d0 d1 d2 : Dt)
    (hrow : get_instance_by_id db id = some row)
    (hparse : parseDt row.expiration_date = some d0)
    (hy : 1000 ≤ d0.year)
    (h1 : addDays d0 days = some d1)
    (h2 : addDays d1 days = some d2) :
    (extend_instance_expiration db id days).1 = some (formatDt d1) ∧
    (extend_instance_expiration (extend_instance_expiration db id days).2 id days).1 =
      some (formatDt d2) ∧
    get_instance_by_id
        (extend_instance_expiration
          (extend_instance_expiration db id days).2 id days).2 id =
      some { row with expiration_date := formatDt d2 } ∧
    addDays d0 (2 * days) = some d2 ∧
    (∀ db2 : List InstanceRow, get_instance_by_id db2 id = none →
      extend_instance_expiration db2 id days = (none, db2) ∧
      extend_instance_expiration (extend_instance_expiration db2 id days).2 id days =
        (none, db2)) := by
  have hfind : List.find? (fun r => r.droplet_id == id) db = some row := hrow
  have hval0 : validDt d0 = true := parseDt_valid hparse
  have hval1 : validDt d1 = true := addDays_valid hval0 h1
  have hy1 : 1000 ≤ d1.year := le_trans hy (addDays_year_mono h1)
  have e1 : extend_instance_expiration db id days =
      (some (formatDt d1), db.map fun r =>
        if r.droplet_id == id then { r with expiration_date := formatDt d1 }
        else r) := by
    unfold extend_instance_expiration
    rw [hfind]
    dsimp only
    rw [hparse]
    dsimp only
    rw [h1]
  have hfind1 : List.find? (fun r => r.droplet_id == id)
      (db.map fun r =>
        if r.droplet_id == id then { r with expiration_date := formatDt d1 }
        else r) = some { row with expiration_date := formatDt d1 } := by
    rw [instanceFind_update db id
      (fun r => { r with expiration_date := formatDt d1 }) (fun r => rfl), hfind]
    rfl
  have hparse1 : parseDt (formatDt d1) = some d1 := parseDt_formatDt hval1 hy1
  have e2 : extend_instance_expiration (extend_instance_expiration db id days).2 id days =
      (some (formatDt d2),
        (db.map fun r =>
          if r.droplet_id == id then { r with expiration_date := formatDt d1 }
          else r).map fun r =>
            if r.droplet_id == id then { r with expiration_date := formatDt d2 }
            else r) := by
    rw [e1]
    unfold extend_instance_expiration
    rw [hfind1]
    dsimp only
    rw [hparse1]
    dsimp only
    rw [h2]
  refine ⟨?_, ?_, ?_, ?_, ?_⟩
  · rw [e1]
  · rw [e2]
  · rw [e2]
    show List.find? (fun r => r.droplet_id == id)
        ((db.map fun r =>
          if r.droplet_id == id then { r with expiration_date := formatDt d1 }
          else r).map fun r =>
            if r.droplet_id == id then { r with expiration_date := formatDt d2 }
            else r) =
      some { row with expiration_date := formatDt d2 }
    rw [instanceFind_update _ id
      (fun r => { r with expiration_date := formatDt d2 }) (fun r => rfl), hfind1]
    rfl
  · rw [two_mul, addDays_add, h1]
    exact h2
  · intro db2 hnone
    have hf2 : List.find? (fun r => r.droplet_id == id) db2 = none := hnone
    have e3 : extend_instance_expiration db2 id days = (none, db2) := by
      unfold extend_instance_expiration
      rw [hf2]
    exact ⟨e3, by rw [e3]; exact e3⟩

/-- Witness for C7 (amended): extending `2024-02-27 10:00:00` by 3 days twice
lands on `2024-03-04 10:00:00` (leap-year February), which is also a single
shift of 6 days. -/
theorem c7_extend_additive_amended_witness :
    (extend_instance_expiration
      [⟨1, "vm", "1.2.3.4", "t", "2024-02-27 10:00:00", 1, 42, none, none, none,
        none, none, none⟩] 1 3).1 = some (formatDt ⟨2024, 3, 1, 10, 0, 0⟩) ∧
    (extend_instance_expiration
      (extend_instance_expiration
        [⟨1, "vm", "1.2.3.4", "t", "2024-02-27 10:00:00", 1, 42, none, none, none,
          none, none, none⟩] 1 3).2 1 3).1 =
      some (formatDt ⟨2024, 3, 4, 10, 0, 0⟩) ∧
    addDays ⟨2024, 2, 27, 10, 0, 0⟩ (2 * 3) = some ⟨2024, 3, 4, 10, 0, 0⟩ ∧
    extend_instance_expiration
      [⟨2, "other", "1.2.3.5", "t", "2024-02-27 10:00:00", 1, 42, none, none, none,
        none, none, none⟩] 1 3 =
      (none, [⟨2, "other", "1.2.3.5", "t", "2024-02-27 10:00:00", 1, 42, none, none,
        none, none, none, none⟩]) := by
  have h := c7_extend_additive_amended
    [⟨1, "vm", "1.2.3.4", "t", "2024-02-27 10:00:00", 1, 42, none, none, none,
      none, none, none⟩] 1 3
    ⟨1, "vm", "1.2.3.4", "t", "2024-02-27 10:00:00", 1, 42, none, none, none,
      none, none, none⟩
    ⟨2024, 2, 27, 10, 0, 0⟩ ⟨2024, 3, 1, 10, 0, 0⟩ ⟨2024, 3, 4, 10, 0, 0⟩
    (by decide) (by decide) (by decide) (by decide) (by decide)
  exact ⟨h.1, h.2.1, h.2.2.2.1,
    (h.2.2.2.2 [⟨2, "other", "1.2.3.5", "t", "2024-02-27 10:00:00", 1, 42, none,
      none, none, none, none, none⟩] (by decide)).1⟩

/-- C8: save/fetch round-trip.  Saving a new VM record and then fetching it
by `droplet_id` returns a row in which every column equals the saved value;
the DNS triple (which `save_instance` leaves NULL and `update_instance_dns`
populates) also round-trips exactly.  Because the optional parameters are
universally quantified `Option`s, instantiating them at `none` gives the
"save without optional fields" half: the fetched row still carries all
thirteen columns, the optional ones present as `none` values — not absent
and not an error. -/
theorem c8_save_fetch_round_trip
    (db : List InstanceRow) (droplet_id ssh_key_id creator_id : Nat)
    (name ip_address droplet_type expiration_date : String)
    (creator_username created_at : Option String) (price_hourly : Option Rat)
    (domain_name : String) (dns_rec : Nat) (dns_zone : String)
    (habsent : get_instance_by_id db droplet_id = none) :
    get_instance_by_id
        (save_instance db droplet_id name ip_address droplet_type expiration_date
          ssh_key_id creator_id creator_username created_at price_hourly)
        droplet_id =
      some ⟨droplet_id, name, ip_address, droplet_type, expiration_date, ssh_key_id,
        creator_id, creator_username, none, none, none, created_at, price_hourly⟩ ∧
    get_instance_by_id
        (update_instance_dns
          (save_instance db droplet_id name ip_address droplet_type expiration_date
            ssh_key_id creator_id creator_username created_at price_hourly)
          droplet_id domain_name dns_rec dns_zone).2 droplet_id =
      some ⟨droplet_id, name, ip_address, droplet_type, expiration_date, ssh_key_id,
        creator_id, creator_username, some domain_name, some dns_rec, some dns_zone,
        created_at, price_hourly⟩ := by
  have hf : List.find? (fun r => r.droplet_id == droplet_id) db = none := habsent
  have hsave : save_instance db droplet_id name ip_address droplet_type
      expiration_date ssh_key_id creator_id creator_username created_at price_hourly =
      db ++ [⟨droplet_id, name, ip_address, droplet_type, expiration_date, ssh_key_id,
        creator_id, creator_username, none, none, none, created_at, price_hourly⟩] := by
    unfold save_instance
    rw [hf]
    rfl
  have hfetch : List.find? (fun r => r.droplet_id == droplet_id)
      (db ++ [⟨droplet_id, name, ip_address, droplet_type, expiration_date, ssh_key_id,
        creator_id, creator_username, none, none, none, created_at, price_hourly⟩]) =
      some ⟨droplet_id, name, ip_address, droplet_type, expiration_date, ssh_key_id,
        creator_id, creator_username, none, none, none, created_at, price_hourly⟩ := by
    rw [find?_append_of_none _ hf]
    exact @List.find?_cons_of_pos InstanceRow (fun r => r.droplet_id == droplet_id)
      ⟨droplet_id, name, ip_address, droplet_type, expiration_date, ssh_key_id,
        creator_id, creator_username, none, none, none, created_at, price_hourly⟩ []
      (by simp)
  constructor
  · rw [hsave]
    exact hfetch
  · rw [hsave]
    show List.find? (fun (r : InstanceRow) => r.droplet_id == droplet_id)
        ((db ++ [(⟨droplet_id, name, ip_address, droplet_type, expiration_date,
          ssh_key_id, creator_id, creator_username, none, none, none, created_at,
          price_hourly⟩ : InstanceRow)]).map fun (r : InstanceRow) =>
            if r.droplet_id == droplet_id then
              { r with domain_name := some domain_name,
                       dns_record_id := some dns_rec,
                       dns_zone := some dns_zone }
            else r) =
      some ⟨droplet_id, name, ip_address, droplet_type, expiration_date, ssh_key_id,
        creator_id, creator_username, some domain_name, some dns_rec, some dns_zone,
        created_at, price_hourly⟩
    rw [instanceFind_update _ droplet_id
      (fun r => { r with domain_name := some domain_name,
                         dns_record_id := some dns_rec,
                         dns_zone := some dns_zone }) (fun r => rfl), hfetch]
    rfl

/-- Witness for C8 on an initially empty table, once with every optional
field populated and once with none of them. -/
theorem c8_save_fetch_round_trip_witness :
    get_instance_by_id
        (update_instance_dns
          (save_instance [] 7 "vm" "10.0.0.1" "s-1vcpu-1gb" "2025-01-08 12:00:00"
            3 42 (some "@alice") (some "2025-01-01 12:00:00") (some (7 / 100 : Rat)))
          7 "sub.example.com" 555 "example.com").2 7 =
      some ⟨7, "vm", "10.0.0.1", "s-1vcpu-1gb", "2025-01-08 12:00:00", 3, 42,
        some "@alice", some "sub.example.com", some 555, some "example.com",
        some "2025-01-01 12:00:00", some (7 / 100 : Rat)⟩ ∧
    get_instance_by_id
        (save_instance [] 8 "vm2" "10.0.0.2" "s-1vcpu-1gb" "2025-01-09 12:00:00"
          3 42 none none none) 8 =
      some ⟨8, "vm2", "10.0.0.2", "s-1vcpu-1gb", "2025-01-09 12:00:00", 3, 42,
        none, none, none, none, none, none⟩ :=
  ⟨(c8_save_fetch_round_trip [] 7 3 42 "vm" "10.0.0.1" "s-1vcpu-1gb"
      "2025-01-08 12:00:00" (some "@alice") (some "2025-01-01 12:00:00")
      (some (7 / 100 : Rat)) "sub.example.com" 555 "example.com" rfl).2,
   (c8_save_fetch_round_trip [] 8 3 42 "vm2" "10.0.0.2" "s-1vcpu-1gb"
      "2025-01-09 12:00:00" none none none "d" 0 "z" rfl).1⟩

/-- C10 (implicit): extend is atomic on a data error.  For an existing row
whose stored `expiration_date` does not `strptime` in the
`"%Y-%m-%d %H:%M:%S"` format, `extend_instance_expiration` returns `None`
(the same value as for a missing row) and executes no UPDATE: the table —
including the `expiration_date` of that row and every other field — is returned
unchanged. -/
theorem c10_extend_atomic_on_parse_error
    (db : List InstanceRow) (id days : Nat) (row : InstanceRow)
    (hrow : get_instance_by_id db id = some row)
    (hbad : parseDt row.expiration_date = none) :
    extend_instance_expiration db id days = (none, db) := by
  have hf : List.find? (fun r => r.droplet_id == id) db = some row := hrow
  unfold extend_instance_expiration
  rw [hf]
  dsimp only
  rw [hbad]

/-- Witness for C10: a row whose expiration reads `"tomorrow"`. -/
theorem c10_extend_atomic_on_parse_error_witness :
    extend_instance_expiration
      [⟨1, "vm", "1.2.3.4", "t", "tomorrow", 1, 42, none, none, none, none,
        none, none⟩] 1 7 =
      (none, [⟨1, "vm", "1.2.3.4", "t", "tomorrow", 1, 42, none, none, none, none,
        none, none⟩]) :=
  c10_extend_atomic_on_parse_error _ 1 7
    ⟨1, "vm", "1.2.3.4", "t", "tomorrow", 1, 42, none, none, none, none, none, none⟩
    (by decide) (by decide)

/-- C9: a degraded cluster still reports ready.  For a provisioning cluster
present in the store, a live status of `"degraded"` is stored as `"running"`
(not `"degraded"`) with the endpoint taken from the provider response, and
the readiness message sent to the creator carries the degraded-state caveat;
a live status of `"running"` stores the same état and sends the same message
without the caveat (the caveat string itself is nonempty, so the two
messages differ exactly by it). -/
theorem c9_degraded_reports_ready
    (db : List ClusterRow) (cl : SweepCluster) (ep : String) (kube : KubeFetch)
    (hrow : (List.find? (fun r => r.cluster_id == cl.cluster_id) db).isSome = true) :
    (get_k8s_cluster_by_id
        (poll_provisioning_cluster db cl ⟨true, some "degraded", ep⟩ kube).db
        cl.cluster_id =
      (get_k8s_cluster_by_id db cl.cluster_id).map
        (fun r => { r with status := "running", endpoint := ep })) ∧
    ((poll_provisioning_cluster db cl ⟨true, some "degraded", ep⟩ kube).creatorMessages =
      ["K8s кластер <b>" ++ cl.cluster_name ++ "</b> готов!" ++
        (if ep ≠ "" then "\nEndpoint: <code>" ++ ep ++ "</code>" else "") ++
        degradedCaveat]) ∧
    (get_k8s_cluster_by_id
        (poll_provisioning_cluster db cl ⟨true, some "running", ep⟩ kube).db
        cl.cluster_id =
      (get_k8s_cluster_by_id db cl.cluster_id).map
        (fun r => { r with status := "running", endpoint := ep })) ∧
    ((poll_provisioning_cluster db cl ⟨true, some "running", ep⟩ kube).creatorMessages =
      ["K8s кластер <b>" ++ cl.cluster_name ++ "</b> готов!" ++
        (if ep ≠ "" then "\nEndpoint: <code>" ++ ep ++ "</code>" else "")]) ∧
    degradedCaveat ≠ "" := by
  have hupd : update_k8s_cluster_status db cl.cluster_id "running" (some ep) =
      (true, db.map fun r =>
        if r.cluster_id == cl.cluster_id then
          { r with status := "running", endpoint := ep }
        else r) := by
    unfold update_k8s_cluster_status
    rw [if_pos hrow]
    exact rfl
  have eA : poll_provisioning_cluster db cl ⟨true, some "degraded", ep⟩ kube =
      ⟨db.map fun r =>
        if r.cluster_id == cl.cluster_id then
          { r with status := "running", endpoint := ep }
        else r,
       ["K8s кластер <b>" ++ cl.cluster_name ++ "</b> готов!" ++
         (if ep ≠ "" then "\nEndpoint: <code>" ++ ep ++ "</code>" else "") ++
         degradedCaveat],
       (match kube with
        | .ok _ => ["kubeconfig-" ++ cl.cluster_name ++ ".yaml"]
        | .err => []),
       ["ready"]⟩ := by
    simp only [poll_provisioning_cluster, hupd]
    cases kube <;> simp
  have eB : poll_provisioning_cluster db cl ⟨true, some "running", ep⟩ kube =
      ⟨db.map fun r =>
        if r.cluster_id == cl.cluster_id then
          { r with status := "running", endpoint := ep }
        else r,
       ["K8s кластер <b>" ++ cl.cluster_name ++ "</b> готов!" ++
         (if ep ≠ "" then "\nEndpoint: <code>" ++ ep ++ "</code>" else "")],
       (match kube with
        | .ok _ => ["kubeconfig-" ++ cl.cluster_name ++ ".yaml"]
        | .err => []),
       ["ready"]⟩ := by
    simp only [poll_provisioning_cluster, hupd]
    cases kube <;> simp [String.append_empty]
  refine ⟨?_, ?_, ?_, ?_, ?_⟩
  · rw [eA]
    exact clusterFind_update db cl.cluster_id
      (fun r => { r with status := "running", endpoint := ep }) (fun r => rfl)
  · rw [eA]
  · rw [eB]
    exact clusterFind_update db cl.cluster_id
      (fun r => { r with status := "running", endpoint := ep }) (fun r => rfl)
  · rw [eB]
  · intro h
    exact absurd (congrArg String.length h) (by decide)

/-- Witness for C9 on a one-cluster store: degraded stores `running` with the
endpoint and appends the caveat to the creator message; running sends the
same message without the caveat. -/
theorem c9_degraded_reports_ready_witness :
    get_k8s_cluster_by_id
        (poll_provisioning_cluster
          [⟨"cid", "demo", "fra1", "1.29", "s", 2, "provisioning", "", 42, none,
            "2025-01-08 12:00:00", "2025-01-01 12:00:00", none, false⟩]
          ⟨"cid", "demo", "fra1", "s", 2, ExpStored.asStr "2025-01-08 12:00:00", 42, none⟩
          ⟨true, some "degraded", "https://x"⟩ (KubeFetch.ok "cfg")).db "cid" =
      some ⟨"cid", "demo", "fra1", "1.29", "s", 2, "running", "https://x", 42, none,
        "2025-01-08 12:00:00", "2025-01-01 12:00:00", none, false⟩ ∧
    (poll_provisioning_cluster
        [⟨"cid", "demo", "fra1", "1.29", "s", 2, "provisioning", "", 42, none,
          "2025-01-08 12:00:00", "2025-01-01 12:00:00", none, false⟩]
        ⟨"cid", "demo", "fra1", "s", 2, ExpStored.asStr "2025-01-08 12:00:00", 42, none⟩
        ⟨true, some "degraded", "https://x"⟩ (KubeFetch.ok "cfg")).creatorMessages =
      ["K8s кластер <b>demo</b> готов!\nEndpoint: <code>https://x</code>\n⚠️ Кластер запущен в деградированном состоянии."] ∧
    (poll_provisioning_cluster
        [⟨"cid", "demo", "fra1", "1.29", "s", 2, "provisioning", "", 42, none,
          "2025-01-08 12:00:00", "2025-01-01 12:00:00", none, false⟩]
        ⟨"cid", "demo", "fra1", "s", 2, ExpStored.asStr "2025-01-08 12:00:00", 42, none⟩
        ⟨true, some "running", "https://x"⟩ (KubeFetch.ok "cfg")).creatorMessages =
      ["K8s кластер <b>demo</b> готов!\nEndpoint: <code>https://x</code>"] := by
  have h := c9_degraded_reports_ready
    [⟨"cid", "demo", "fra1", "1.29", "s", 2, "provisioning", "", 42, none,
      "2025-01-08 12:00:00", "2025-01-01 12:00:00", none, false⟩]
    ⟨"cid", "demo", "fra1", "s", 2, ExpStored.asStr "2025-01-08 12:00:00", 42, none⟩
    "https://x" (KubeFetch.ok "cfg") (by decide)
  exact ⟨h.1.trans (by decide), (h.2.1).trans (by decide),
    (h.2.2.2.1).trans (by decide)⟩
